import Mathlib

/-!
Verification development for the garage-grown-gear-scraper repository.

This file gives a shallow embedding of the resilient acquisition subsystem:

* `RetryHandlerM` — `src/error_handling/retry_handler.py` (`RetryHandler`):
  `calculate_delay`, `should_retry`, `execute_with_retry`.
* `ScraperM` — `src/scraper/garage_grown_gear_scraper.py`
  (`GarageGrownGearScraper`): `_make_request`, `extract_product_data`,
  `_extract_products_batch`, `_scrape_page_internal`, `get_pagination_urls`,
  `_scrape_all_products_internal`, `_get_rotating_headers`.
* `BatchM` — `src/error_handling/monitoring.py`
  (`BatchProcessor.process_in_batches`).

Modelling conventions.  Python floats are modelled as `ℚ` (all constants of
interest — 1.0, 0.5, 2, 3, 30 — are exactly representable, and the claims are
about exact arithmetic identities, not rounding).  Calls to `random.*` are
modelled by explicit oracle parameters (`rand`, `human_delay`, choice
indices): the embedded functions are deterministic functions of the RNG
draws, exactly as the source is.  The network and the external HTML library
(scrapling) are modelled by an oracle `world : String → Option Page` mapping
a URL to the parsed page a successful fetch yields, or `none` when every
transport (retries and the evasion chain included) fails; a Python exception
escaping a modelled function is represented by `Except`/`Option`, and total
Lean functions witness that no exception propagates.  `time.sleep` calls are
not executed but logged, so theorems can speak about the slept durations.
-/

namespace RetryHandlerM

/-- RetryPolicy: the constructor arguments of `RetryHandler.__init__`. -/
structure Policy where
  max_retries : Nat
  base_delay : ℚ
  max_delay : ℚ
  exponential_base : ℚ
  jitter : Bool
deriving DecidableEq

/-- Embedding of `RetryHandler.calculate_delay`.  `rand` is the value the
single call `random.random()` would return (a draw in `[0,1)`); it is read
only when `jitter` is on. -/
def calculate_delay (p : Policy) (attempt : Nat) (rand : ℚ) : ℚ :=
  let d := p.base_delay * p.exponential_base ^ attempt
  let d := min d p.max_delay
  if p.jitter then d * (1/2 + rand * (1/2)) else d

/-- Exception taxonomy of `src/error_handling/exceptions.py`, restricted to
the classes `should_retry` distinguishes.  `rateLimit` carries the
`retry_after` hint (`none` models Python `None`). -/
inductive Exc where
  | nonRetryable
  | retryable
  | network
  | rateLimit (retry_after : Option ℚ)
  | sheetsAPI
  | quotaExceeded
  | connection
  | timeout
  | other
deriving DecidableEq

/-- Membership in the `retryable_exceptions` tuple of
`RetryHandler.should_retry` (NetworkError, RateLimitError, SheetsAPIError,
QuotaExceededError, ConnectionError, TimeoutError). -/
def in_retryable_tuple : Exc → Bool
  | .network => true
  | .rateLimit _ => true
  | .sheetsAPI => true
  | .quotaExceeded => true
  | .connection => true
  | .timeout => true
  | _ => false

/-- Exception-class part of `RetryHandler.should_retry` (the isinstance
chain after the attempt-count check): NonRetryableError never retries,
RetryableError always does, otherwise membership in the retryable tuple
decides. -/
def retry_class (e : Exc) : Bool :=
  match e with
  | .nonRetryable => false
  | .retryable => true
  | e => in_retryable_tuple e

/-- Embedding of `RetryHandler.should_retry`. -/
def should_retry (p : Policy) (e : Exc) (attempt : Nat) : Bool :=
  if p.max_retries ≤ attempt then false else retry_class e

/-- Embedding of the rate-limit special case in `execute_with_retry`:
`if isinstance(e, RateLimitError) and e.retry_after: delay = max(delay,
e.retry_after)`.  Python truthiness of `retry_after` means a present,
nonzero hint. -/
def apply_rate_limit_hint (e : Exc) (d : ℚ) : ℚ :=
  match e with
  | .rateLimit (some h) => if h ≠ 0 then max d h else d
  | _ => d

/-- Loop body of `RetryHandler.execute_with_retry`.  `f n` is the outcome of
the `n`-th call of `func` (0-indexed), `rand n` the jitter draw of attempt
`n`, `rem` the number of loop iterations left (`range(max_retries+1)` runs
`max_retries + 1` iterations), `last` the current `last_exception`.
Returns the overall outcome (`.error e` models `raise e`) together with the
list of slept delays, in order. -/
def execute_go (p : Policy) (f : Nat → Except Exc α) (rand : Nat → ℚ) :
    Nat → Nat → Except Exc α → Except Exc α × List ℚ
  | 0, _, last => (last, [])
  | rem + 1, attempt, _ =>
    match f attempt with
    | .ok a => (.ok a, [])
    | .error e =>
      if should_retry p e attempt then
        if attempt < p.max_retries then
          let d := apply_rate_limit_hint e (calculate_delay p attempt (rand attempt))
          let r := execute_go p f rand rem (attempt + 1) (.error e)
          (r.1, d :: r.2)
        else
          execute_go p f rand rem (attempt + 1) (.error e)
      else
        (.error e, [])

/-- Embedding of `RetryHandler.execute_with_retry`.  The initial
`last_exception = None` is unreachable as a result (the loop runs at least
once and a failing final attempt raises inside the loop); `.error .other`
is a harmless placeholder for it. -/
def execute_with_retry (p : Policy) (f : Nat → Except Exc α) (rand : Nat → ℚ) :
    Except Exc α × List ℚ :=
  execute_go p f rand (p.max_retries + 1) 0 (.error .other)

end RetryHandlerM

namespace ScraperM

/-- Outcome of one `self.fetcher.get` call inside `_make_request`: either a
response with an HTTP status code, or a raised exception (the `except`
branch of the attempt). -/
inductive FetchResult where
  | status (code : Nat)
  | exn
deriving DecidableEq

/-- Configuration slice of `GarageGrownGearScraper` that `_make_request`
reads: `max_retries` and `retry_delay`. -/
structure ReqCfg where
  max_retries : Nat
  retry_delay : ℚ
deriving DecidableEq

/-- Kind of each `time.sleep` performed inside `_make_request`:
the `_simulate_human_behavior` random delay at the top of every attempt,
the 403-branch backoff, the 429-branch backoff, and the standard
end-of-iteration backoff. -/
inductive SleepKind where
  | human
  | blocked403
  | rateLimited429
  | standard
deriving DecidableEq

/-- Loop of `_make_request` (`for attempt in range(self.max_retries)`).
`resp n` is the fetch result of attempt `n`; `human_delay n` is the random
duration `_simulate_human_behavior` sleeps at the start of attempt `n`.
Returns the index of the successful attempt (`none` when every attempt
fails, after which the source escalates to the external evasion chain,
outside this loop) and, per executed attempt, the list of sleeps that
attempt performed, in order. -/
def make_request_go (cfg : ReqCfg) (resp : Nat → FetchResult) (human_delay : Nat → ℚ) :
    Nat → Nat → Option Nat × List (List (SleepKind × ℚ))
  | 0, _ => (none, [])
  | rem + 1, attempt =>
    let human := (SleepKind.human, human_delay attempt)
    if resp attempt = .status 200 then
      (some attempt, [[human]])
    else
      let backoff : List (SleepKind × ℚ) :=
        if resp attempt = .status 403 ∧ attempt < cfg.max_retries - 1 then
          [(SleepKind.blocked403, cfg.retry_delay * 3 ^ attempt)]
        else if resp attempt = .status 429 ∧ attempt < cfg.max_retries - 1 then
          [(SleepKind.rateLimited429, 30 + cfg.retry_delay * 2 ^ attempt)]
        else []
      let std : List (SleepKind × ℚ) :=
        if attempt < cfg.max_retries - 1 then
          [(SleepKind.standard, cfg.retry_delay * 2 ^ attempt)]
        else []
      let rest := make_request_go cfg resp human_delay rem (attempt + 1)
      (rest.1, (human :: (backoff ++ std)) :: rest.2)

/-- Embedding of the retry loop of `_make_request`, entered at attempt 0
with `max_retries` iterations available. -/
def make_request (cfg : ReqCfg) (resp : Nat → FetchResult) (human_delay : Nat → ℚ) :
    Option Nat × List (List (SleepKind × ℚ)) :=
  make_request_go cfg resp human_delay cfg.max_retries 0

/-- Sleeps of one attempt that belong to the retry backoff (everything but
the random `_simulate_human_behavior` delay), as a list of durations. -/
def backoff_sleeps (attempt_log : List (SleepKind × ℚ)) : List ℚ :=
  (attempt_log.filter (fun s => s.1 ≠ SleepKind.human)).map Prod.snd

/-- Product record assembled by `extract_product_data` (the dictionary
returned by the `try` body).  Prices, rating and counts are modelled as
`ℚ`/`Int` in place of Python floats/ints. -/
structure ProductRecord where
  name : String
  brand : String
  current_price : Option ℚ
  original_price : Option ℚ
  discount_percentage : Option ℚ
  sale_label : String
  availability_status : String
  rating : Option ℚ
  reviews_count : Option Int
  product_url : String
  image_url : String
deriving DecidableEq

/-- Result of `extract_product_data`: either the populated record dictionary
(truthy in Python) or the empty dictionary `{}` the `except` branch
returns (falsy in Python). -/
inductive ExtractResult where
  | record (r : ProductRecord)
  | empty_dict
deriving DecidableEq

/-- Embedding of `extract_product_data`.  The `try` body only performs calls
into the external HTML library (scrapling `Adaptor` navigation), so it is
modelled by the oracle `core : Item → Except Unit ProductRecord`: `.ok r`
when the body completes and returns the record `r`, `.error ()` when any of
its calls raises.  The `except Exception` handler turns a raise into the
empty dictionary; the function is total, so no exception propagates. -/
def extract_product_data {Item : Type} (core : Item → Except Unit ProductRecord)
    (it : Item) : ExtractResult :=
  match core it with
  | .ok r => .record r
  | .error _ => .empty_dict

/-- Per-element body of the `_extract_products_batch` loop: the record is
kept only `if product_data and product_data.get('name')`, i.e. when
extraction produced a non-empty dictionary whose `name` is non-empty. -/
def keep_product {Item : Type} (core : Item → Except Unit ProductRecord)
    (it : Item) : Option ProductRecord :=
  match extract_product_data core it with
  | .record r => if r.name ≠ "" then some r else none
  | .empty_dict => none

/-- Embedding of `_extract_products_batch`: left-to-right loop appending the
kept records. -/
def extract_products_batch {Item : Type} (core : Item → Except Unit ProductRecord)
    (items : List Item) : List ProductRecord :=
  items.foldl
    (fun acc it =>
      match keep_product core it with
      | some r => acc ++ [r]
      | none => acc)
    []

end ScraperM

namespace BatchM

/-- Chunking loop of `BatchProcessor.process_in_batches`
(`for i in range(0, len(items), self.batch_size)`), for batch size `b + 1`:
process the first `b + 1` items, recurse on the rest, concatenating the
per-batch results in order.  The memory-tracker calls are observational and
not modelled. -/
def batches_go (b : Nat) (f : List α → List β) : List α → List β
  | [] => []
  | x :: xs => f ((x :: xs).take (b + 1)) ++ batches_go b f ((x :: xs).drop (b + 1))
termination_by l => l.length
decreasing_by
  simp only [List.drop_succ_cons, List.length_cons, List.length_drop]
  omega

/-- Embedding of `BatchProcessor.process_in_batches`.  A batch size of 0
makes Python's `range(0, n, 0)` raise `ValueError`, modelled as `none`. -/
def process_in_batches (batch_size : Nat) (f : List α → List β)
    (items : List α) : Option (List β) :=
  match batch_size with
  | 0 => none
  | b + 1 => some (batches_go b f items)

end BatchM

namespace ScraperM

/-- Embedding of `_scrape_page_internal`.  `page` is the fetch result of the
page (`none` when `_make_request` failed, in which case the source returns
`[]`); on success the page's product elements are extracted, through
`BatchProcessor.process_in_batches` exactly when the element count exceeds
the batch size. -/
def scrape_page_internal {Item : Type} (core : Item → Except Unit ProductRecord)
    (batch_size : Nat) (page : Option (List Item)) : Option (List ProductRecord) :=
  match page with
  | none => some []
  | some elements =>
    if batch_size < elements.length then
      BatchM.process_in_batches batch_size (extract_products_batch core) elements
    else
      some (extract_products_batch core elements)

/-- First pool entry of `user_agents` in `_get_rotating_headers`. -/
def ua_win_chrome119 : String :=
  "Mozilla/5.0 (Windows NT 10.0; Win64; x64) AppleWebKit/537.36 (KHTML, like Gecko) Chrome/119.0.0.0 Safari/537.36"

/-- Second pool entry of `user_agents` in `_get_rotating_headers`. -/
def ua_win_chrome118 : String :=
  "Mozilla/5.0 (Windows NT 10.0; Win64; x64) AppleWebKit/537.36 (KHTML, like Gecko) Chrome/118.0.0.0 Safari/537.36"

/-- Third pool entry of `user_agents` in `_get_rotating_headers`. -/
def ua_mac_chrome119 : String :=
  "Mozilla/5.0 (Macintosh; Intel Mac OS X 10_15_7) AppleWebKit/537.36 (KHTML, like Gecko) Chrome/119.0.0.0 Safari/537.36"

/-- Fourth pool entry of `user_agents` in `_get_rotating_headers`. -/
def ua_linux_chrome119 : String :=
  "Mozilla/5.0 (X11; Linux x86_64) AppleWebKit/537.36 (KHTML, like Gecko) Chrome/119.0.0.0 Safari/537.36"

/-- Fifth pool entry of `user_agents` in `_get_rotating_headers`. -/
def ua_win_firefox119 : String :=
  "Mozilla/5.0 (Windows NT 10.0; Win64; x64; rv:109.0) Gecko/20100101 Firefox/119.0"

/-- Sixth pool entry of `user_agents` in `_get_rotating_headers`. -/
def ua_mac_firefox119 : String :=
  "Mozilla/5.0 (Macintosh; Intel Mac OS X 10.15; rv:109.0) Gecko/20100101 Firefox/119.0"

/-- Pool `user_agents` of `_get_rotating_headers`. -/
def user_agents : List String :=
  [ua_win_chrome119, ua_win_chrome118, ua_mac_chrome119,
   ua_linux_chrome119, ua_win_firefox119, ua_mac_firefox119]

/-- Pool `platforms` of `_get_rotating_headers`. -/
def platforms : List String := ["Win32", "MacIntel", "Linux x86_64"]

/-- Pool `chrome_versions` of `_get_rotating_headers` (sec-ch-ua brand
strings; the inner quotes are part of the value). -/
def chrome_versions : List String :=
  ["\"Google Chrome\";v=\"119\"", "\"Google Chrome\";v=\"118\"", "\"Chromium\";v=\"119\""]

/-- Pool of `Accept-Language` values in `_get_rotating_headers`. -/
def accept_languages : List String :=
  ["en-US,en;q=0.9", "en-GB,en;q=0.9", "en-US,en;q=0.8"]

/-- Pool of `Sec-Fetch-Site` values in `_get_rotating_headers`. -/
def sec_fetch_sites : List String := ["none", "same-origin", "cross-site"]

/-- Pool of `Cache-Control` values in `_get_rotating_headers`. -/
def cache_controls : List String := ["max-age=0", "no-cache"]

/-- One RNG outcome for `_get_rotating_headers`: `random.choice(l)` returns
the element at a uniformly drawn valid index, modelled as `idx % len l`;
the two `random.random() < p` header-omission draws are modelled as the
booleans they decide. -/
structure HeaderChoices where
  ua_idx : Nat
  platform_idx : Nat
  chrome_idx : Nat
  lang_idx : Nat
  site_idx : Nat
  cache_idx : Nat
  drop_dnt : Bool
  drop_sec_ch_ua : Bool
deriving DecidableEq

/-- Model of `random.choice` on a non-empty list given a drawn index. -/
def choice (l : List String) (idx : Nat) : String :=
  l.getD (idx % l.length) ""

/-- Headers dictionary produced by `_get_rotating_headers` (fields with
fixed constant values are omitted; `none` models a popped header). -/
structure Headers where
  user_agent : String
  accept_language : String
  sec_fetch_site : String
  cache_control : String
  sec_ch_ua : Option String
  sec_ch_ua_platform : String
  dnt : Option String
deriving DecidableEq

/-- Embedding of `_get_rotating_headers`: the User-Agent, platform,
sec-ch-ua brand, Accept-Language, Sec-Fetch-Site and Cache-Control values
are each drawn independently from their own pools. -/
def get_rotating_headers (c : HeaderChoices) : Headers :=
  let selected_ua := choice user_agents c.ua_idx
  let selected_platform := choice platforms c.platform_idx
  let selected_chrome := choice chrome_versions c.chrome_idx
  { user_agent := selected_ua
    accept_language := choice accept_languages c.lang_idx
    sec_fetch_site := choice sec_fetch_sites c.site_idx
    cache_control := choice cache_controls c.cache_idx
    sec_ch_ua :=
      if c.drop_sec_ch_ua then none
      else some (selected_chrome ++ ", \"Not?A_Brand\";v=\"24\"")
    sec_ch_ua_platform := "\"" ++ selected_platform ++ "\""
    dnt := if c.drop_dnt then none else some "1" }

/-- Platform named inside each User-Agent string of the pool (the
`sec-ch-ua-platform` token a browser with that User-Agent would send):
the Windows UAs name Windows NT (`Win32`), the Macintosh UAs `MacIntel`,
the X11/Linux UA `Linux x86_64`. -/
def ua_named_platform (ua : String) : Option String :=
  if ua = ua_win_chrome119 ∨ ua = ua_win_chrome118 ∨ ua = ua_win_firefox119 then
    some "Win32"
  else if ua = ua_mac_chrome119 ∨ ua = ua_mac_firefox119 then
    some "MacIntel"
  else if ua = ua_linux_chrome119 then
    some "Linux x86_64"
  else
    none

/-- Consistency property the spec asserts of a generated profile: the
`sec-ch-ua-platform` value agrees with the platform named in the selected
User-Agent string. -/
def headers_consistent (h : Headers) : Bool :=
  match ua_named_platform h.user_agent with
  | some p => h.sec_ch_ua_platform = "\"" ++ p ++ "\""
  | none => false

/-- Parsed page as the crawl level sees it: the product records that
`scrape_page` yields for the page, and the raw pagination hrefs resolved to
absolute URLs (`urljoin` applied), in document order. -/
structure Page where
  records : List ProductRecord
  pagination_hrefs : List String
deriving DecidableEq

/-- State threaded through the `_scrape_all_products_internal` crawl loop.
`visited` models the Python set `visited_urls` as its insertion-order list
(membership and size agree with the set); `fetch_log` records, in order,
one entry per `_make_request` call issued (the URL requested over the
network). -/
structure CrawlState where
  all_products : List ProductRecord
  visited : List String
  urls_to_visit : List String
  fetch_log : List String
deriving DecidableEq

/-- Append each candidate not already present in `seen` (a membership
filter) nor in `acc`, preserving order: the shape of both the
`get_pagination_urls` in-function dedup and the enqueue loop of the
crawler (`if url not in visited_urls and url not in urls_to_visit`). -/
def enqueue_new (seen : List String) (acc : List String) : List String → List String
  | [] => acc
  | u :: us =>
    if u ∈ seen ∨ u ∈ acc then enqueue_new seen acc us
    else enqueue_new seen (acc ++ [u]) us

/-- Embedding of `get_pagination_urls`: the absolute pagination URLs of the
page with duplicates removed, first occurrence kept. -/
def get_pagination_urls (p : Page) : List String :=
  enqueue_new [] [] p.pagination_hrefs

/-- One network environment: what a completed `_make_request`-level fetch of
each URL produces — `some page` when some transport eventually succeeds,
`none` when all attempts and the evasion chain fail.  Fetching is
deterministic: both fetches of the same URL return the same result, as a
stable site would. -/
def World : Type := String → Option Page

/-- The `while urls_to_visit:` loop of `_scrape_all_products_internal`.
Each iteration: pop the head; skip it if visited; mark it visited; fetch it
via `scrape_page` (one `_make_request` call, contributing the page's
records, `[]` on failure); fetch it AGAIN via the explicit
`self._make_request(current_url)` call for pagination extraction; enqueue
unseen pagination URLs; stop when `len(visited_urls) > ceiling` (the
hardcoded ceiling is 50).  `fuel` bounds the number of iterations; every
actual run is the value at any sufficiently large fuel.

`crawl_step` is the body of one non-skipped iteration: mark `current`
visited, fetch it twice (appending both calls to the fetch log), collect
its records, and enqueue its unseen pagination URLs after `rest`. -/
def crawl_step (world : World) (st : CrawlState) (current : String)
    (rest : List String) : CrawlState :=
  { all_products :=
      st.all_products ++ (match world current with | some p => p.records | none => [])
    visited := st.visited ++ [current]
    urls_to_visit :=
      match world current with
      | some p => enqueue_new (st.visited ++ [current]) rest (get_pagination_urls p)
      | none => rest
    fetch_log := st.fetch_log ++ [current, current] }

/-- Crawl loop driver; see `crawl_step` for the iteration body and the
correspondence to the source. -/
def crawl_loop (world : World) (ceiling : Nat) : Nat → CrawlState → CrawlState
  | 0, st => st
  | fuel + 1, st =>
    match st.urls_to_visit with
    | [] => st
    | current :: rest =>
      if current ∈ st.visited then
        crawl_loop world ceiling fuel
          { st with urls_to_visit := rest }
      else
        if ceiling < (crawl_step world st current rest).visited.length then
          crawl_step world st current rest
        else
          crawl_loop world ceiling fuel (crawl_step world st current rest)

/-- Safety ceiling hardcoded in the source
(`if len(visited_urls) > 50: break`). -/
def safety_ceiling : Nat := 50

/-- Homepage URL used by `_establish_session` and as the first gradual
step. -/
def homepage_url : String := "https://www.garagegrowngear.com"

/-- Collections-overview URL, the second gradual step. -/
def collections_url : String := "https://www.garagegrowngear.com/collections"

/-- Entry-URL candidate sequence `gradual_urls` of
`_scrape_all_products_internal`: homepage, collections overview, the main
target, then the fallback URLs. -/
def gradual_urls (base_url : String) (fallback_urls : List String) : List String :=
  [homepage_url, collections_url, base_url] ++ fallback_urls

/-- Probing loop of `_scrape_all_products_internal` over the gradual URL
candidates: fetch each in order; a success at a target URL (the base URL or
a fallback) wins and seeds the crawl; a success elsewhere is only a
stepping stone; a failure moves on.  Returns the winning URL (`none` when
every candidate fails or none of the successes is a target) and the URLs
fetched during probing, in order. -/
def probe (world : World) (base_url : String) (fallback_urls : List String) :
    List String → Option String × List String
  | [] => (none, [])
  | u :: us =>
    if (world u).isSome ∧ (u = base_url ∨ u ∈ fallback_urls) then
      (some u, [u])
    else
      let r := probe world base_url fallback_urls us
      (r.1, u :: r.2)

/-- Embedding of `_scrape_all_products_internal`: establish a session by
fetching the homepage (result only logged), probe the gradual candidates,
and either return with no products when probing found no working target, or
run the crawl loop from the winning URL with empty visited set and empty
product list. -/
def scrape_all_products_internal (world : World) (ceiling : Nat) (fuel : Nat)
    (base_url : String) (fallback_urls : List String) : CrawlState :=
  let session_log := [homepage_url]
  let pr := probe world base_url fallback_urls (gradual_urls base_url fallback_urls)
  match pr.1 with
  | none =>
    { all_products := []
      visited := []
      urls_to_visit := []
      fetch_log := session_log ++ pr.2 }
  | some winner =>
    crawl_loop world ceiling fuel
      { all_products := []
        visited := []
        urls_to_visit := [winner]
        fetch_log := session_log ++ pr.2 }

/-- Number of pages fetched successfully over the network during a run: the
entries of the fetch log whose URL the network serves. -/
def pages_fetched (world : World) (st : CrawlState) : Nat :=
  (st.fetch_log.filter (fun u => (world u).isSome)).length

/-- Concrete network for the safety-ceiling scenario of the spec: the entry
URL `root` serves a page with five pagination links, each of which serves a
leaf page; the warmup/stepping-stone URLs and everything else fail. -/
def world_five_links : World := fun u =>
  if u = "root" then some ⟨[], ["p1", "p2", "p3", "p4", "p5"]⟩
  else if u = "p1" ∨ u = "p2" ∨ u = "p3" ∨ u = "p4" ∨ u = "p5" then some ⟨[], []⟩
  else none

/-- Concrete network with a single working entry URL `root` serving a page
with no pagination links. -/
def world_single_page : World := fun u =>
  if u = "root" then some ⟨[], []⟩ else none

/-- Sample extracted record used by concrete witnesses. -/
def sample_record : ProductRecord :=
  { name := "Sample Product"
    brand := "Sample Brand"
    current_price := some 10
    original_price := some 20
    discount_percentage := some 50
    sale_label := "Save 50%"
    availability_status := "Available"
    rating := some 4
    reviews_count := some 12
    product_url := "https://www.garagegrowngear.com/products/sample"
    image_url := "https://www.garagegrowngear.com/sample.jpg" }

end ScraperM

open RetryHandlerM ScraperM BatchM

/-- Helper: `_extract_products_batch` is the elementwise `filterMap` of its
per-item keep function. -/
theorem extract_batch_eq_filterMap {Item : Type} (core : Item → Except Unit ProductRecord)
    (l : List Item) :
    extract_products_batch core l = l.filterMap (keep_product core) := by
  suffices h : ∀ acc, l.foldl (fun acc it => match keep_product core it with
      | some r => acc ++ [r] | none => acc) acc = acc ++ l.filterMap (keep_product core) by
    simpa [extract_products_batch] using h []
  induction l with
  | nil => simp
  | cons x xs ih =>
    intro acc
    simp only [List.foldl_cons, List.filterMap_cons]
    cases hx : keep_product core x with
    | some r => simp [hx, ih]
    | none => simp [hx, ih]

/-- Helper: the chunking loop applied to an elementwise processor equals the
processor on the whole list. -/
theorem batches_go_filterMap {α β : Type} (b : Nat) (f : List α → List β) (g : α → Option β)
    (hf : ∀ l, f l = l.filterMap g) :
    ∀ (n : Nat) (l : List α), l.length ≤ n → batches_go b f l = l.filterMap g := by
  intro n
  induction n with
  | zero =>
    intro l hl
    have hnil : l = [] := by cases l <;> simp_all
    subst hnil
    simp [batches_go]
  | succ n ih =>
    intro l hl
    cases l with
    | nil => simp [batches_go]
    | cons x xs =>
      rw [batches_go, hf]
      have hdrop : ((x :: xs).drop (b + 1)).length ≤ n := by
        simp only [List.length_drop, List.length_cons] at hl ⊢
        omega
      rw [ih _ hdrop, ← List.filterMap_append, List.take_append_drop]

/-- C4: with policy `{maxAttempts=3, baseDelay=1, multiplier=2, maxDelay=10,
jitter=off}` and every attempt failing with a transient (retryable,
hint-free) error, `execute_with_retry` sleeps exactly [1, 2, 4] between
attempts and then re-raises the final error after attempt 3 (0-indexed)
with no further retry; and `should_retry` is false once the attempt number
reaches `max_retries`. -/
theorem retry_transient_delays (α : Type) (err : Exc) (f : Nat → Except Exc α)
    (rand : Nat → ℚ)
    (herr : in_retryable_tuple err = true ∨ err = .retryable)
    (hno : ∀ q, err ≠ .rateLimit (some q))
    (hf : ∀ n, f n = .error err) :
    execute_with_retry ⟨3, 1, 10, 2, false⟩ f rand = (.error err, [1, 2, 4])
    ∧ ∀ (e : Exc) (a : Nat), 3 ≤ a → should_retry ⟨3, 1, 10, 2, false⟩ e a = false := by
  have hclass : retry_class err = true := by
    rcases herr with h | h
    · revert h; cases err <;> first | decide | (intro _; rfl)
    · subst h; rfl
  have hmax : (⟨3, 1, 10, 2, false⟩ : Policy).max_retries = 3 := rfl
  have hsr : ∀ a, a < 3 → should_retry ⟨3, 1, 10, 2, false⟩ err a = true := by
    intro a ha
    simp [should_retry, hmax, Nat.not_le.mpr ha, hclass]
  have hsr3 : should_retry ⟨3, 1, 10, 2, false⟩ err 3 = false := by
    simp [should_retry, hmax]
  have hhint : ∀ d, apply_rate_limit_hint err d = d := by
    intro d
    cases err with
    | rateLimit o =>
      cases o with
      | none => rfl
      | some q => exact absurd rfl (hno q)
    | nonRetryable => rfl
    | retryable => rfl
    | network => rfl
    | sheetsAPI => rfl
    | quotaExceeded => rfl
    | connection => rfl
    | timeout => rfl
    | other => rfl
  have s0 := hsr 0 (by norm_num)
  have s1 := hsr 1 (by norm_num)
  have s2 := hsr 2 (by norm_num)
  refine ⟨?_, ?_⟩
  · simp only [execute_with_retry, hmax]
    norm_num [execute_go, hf, s0, s1, s2, hsr3, hhint, calculate_delay]
  · intro e a ha
    simp [should_retry, hmax, ha]

/-- C4 witness: the sequence [1, 2, 4] and final failure at a concrete
always-failing function, plus `should_retry` false at attempt 3. -/
theorem retry_transient_delays_witness :
    execute_with_retry ⟨3, 1, 10, 2, false⟩
        (fun _ => (.error .network : Except Exc Unit)) (fun _ => 0)
      = (.error .network, [1, 2, 4])
    ∧ should_retry ⟨3, 1, 10, 2, false⟩ .network 3 = false :=
  ⟨(retry_transient_delays Unit .network (fun _ => .error .network) (fun _ => 0)
      (Or.inl rfl) (fun q => by simp) (fun n => rfl)).1,
   (retry_transient_delays Unit .network (fun _ => .error .network) (fun _ => 0)
      (Or.inl rfl) (fun q => by simp) (fun n => rfl)).2 .network 3 le_rfl⟩

/-- C5: for any policy with `baseDelay ≥ 0` and `multiplier ≥ 1`, the
backoff delay with jitter off equals `min(baseDelay * multiplier^attempt,
maxDelay)`, is monotonically non-decreasing in the attempt, and never
exceeds `maxDelay`; with jitter on it is that value scaled by the factor
`0.5 + rand * 0.5`, which lies in [1/2, 1] for any draw `rand ∈ [0, 1)`. -/
theorem backoff_delay_formula (p : Policy) (a : Nat) (r : ℚ)
    (hb : 0 ≤ p.base_delay) (hm : 1 ≤ p.exponential_base) :
    (p.jitter = false →
      calculate_delay p a r = min (p.base_delay * p.exponential_base ^ a) p.max_delay
      ∧ calculate_delay p a r ≤ calculate_delay p (a + 1) r
      ∧ calculate_delay p a r ≤ p.max_delay)
    ∧ (p.jitter = true → 0 ≤ r → r < 1 →
      calculate_delay p a r
        = min (p.base_delay * p.exponential_base ^ a) p.max_delay * (1/2 + r * (1/2))
      ∧ (1/2 : ℚ) ≤ 1/2 + r * (1/2) ∧ 1/2 + r * (1/2) ≤ 1) := by
  constructor
  · intro hj
    have hred : ∀ n : Nat,
        calculate_delay p n r = min (p.base_delay * p.exponential_base ^ n) p.max_delay := by
      intro n; simp [calculate_delay, hj]
    refine ⟨hred a, ?_, ?_⟩
    · rw [hred a, hred (a + 1)]
      exact min_le_min
        (mul_le_mul_of_nonneg_left (pow_le_pow_right₀ hm (Nat.le_succ a)) hb) le_rfl
    · rw [hred a]; exact min_le_right _ _
  · intro hj h0 h1
    refine ⟨by simp [calculate_delay, hj], by linarith, by linarith⟩

/-- C5 witness: the formula, monotonicity and cap at a jitter-off policy,
and the scaled form at a jitter-on policy with draw 1/2. -/
theorem backoff_delay_formula_witness :
    (calculate_delay ⟨3, 1, 10, 2, false⟩ 0 0 = min ((1 : ℚ) * 2 ^ 0) 10
      ∧ calculate_delay ⟨3, 1, 10, 2, false⟩ 0 0 ≤ calculate_delay ⟨3, 1, 10, 2, false⟩ 1 0
      ∧ calculate_delay ⟨3, 1, 10, 2, false⟩ 0 0 ≤ (10 : ℚ))
    ∧ (calculate_delay ⟨3, 1, 10, 2, true⟩ 0 (1/2)
        = min ((1 : ℚ) * 2 ^ 0) 10 * (1/2 + (1/2) * (1/2))
      ∧ (1/2 : ℚ) ≤ 1/2 + (1/2) * (1/2) ∧ (1/2 : ℚ) + (1/2) * (1/2) ≤ 1) :=
  ⟨(backoff_delay_formula ⟨3, 1, 10, 2, false⟩ 0 0 (by norm_num) (by norm_num)).1 rfl,
   (backoff_delay_formula ⟨3, 1, 10, 2, true⟩ 0 (1/2) (by norm_num) (by norm_num)).2
      rfl (by norm_num) (by norm_num)⟩

/-- C6: (a) in the `execute_with_retry` loop, a rate-limited failure with a
nonzero server hint `q` at a retryable attempt sleeps exactly
`max(computed backoff, q)`, which is at least `q`; (b) in `_make_request`,
a 429 response with a retry remaining sleeps the 429 floor
`30 + retry_delay * 2^attempt` followed by the standard
`retry_delay * 2^attempt`, a total of at least 30 seconds plus the policy
backoff. -/
theorem rate_limit_hint_floor :
    (∀ (p : Policy) (f : Nat → Except Exc Unit) (rand : Nat → ℚ) (rem attempt : Nat)
        (last : Except Exc Unit) (q : ℚ),
      f attempt = .error (.rateLimit (some q)) → q ≠ 0 → attempt < p.max_retries →
      (execute_go p f rand (rem + 1) attempt last).2.head?
          = some (max (calculate_delay p attempt (rand attempt)) q)
        ∧ q ≤ max (calculate_delay p attempt (rand attempt)) q)
    ∧ (∀ (cfg : ReqCfg) (resp : Nat → FetchResult) (hd : Nat → ℚ) (rem attempt : Nat),
      resp attempt = .status 429 → attempt + 1 < cfg.max_retries → 0 ≤ cfg.retry_delay →
      backoff_sleeps ((make_request_go cfg resp hd (rem + 1) attempt).2.headD [])
          = [30 + cfg.retry_delay * 2 ^ attempt, cfg.retry_delay * 2 ^ attempt]
        ∧ 30 + cfg.retry_delay * 2 ^ attempt
            ≤ (backoff_sleeps ((make_request_go cfg resp hd (rem + 1) attempt).2.headD [])).sum) := by
  constructor
  · intro p f rand rem attempt last q hf hq hlt
    have hsr : should_retry p (.rateLimit (some q)) attempt = true := by
      simp [should_retry, Nat.not_le.mpr hlt, retry_class, in_retryable_tuple]
    constructor
    · simp [execute_go, hf, hsr, hlt, apply_rate_limit_hint, hq]
    · exact le_max_right _ _
  · intro cfg resp hd rem attempt h429 hlt hrd
    have hne : resp attempt ≠ .status 200 := by simp [h429]
    have hne403 : ¬(resp attempt = .status 403 ∧ attempt < cfg.max_retries - 1) := by
      simp [h429]
    have hlt' : attempt < cfg.max_retries - 1 := by omega
    have heq : backoff_sleeps ((make_request_go cfg resp hd (rem + 1) attempt).2.headD [])
        = [30 + cfg.retry_delay * 2 ^ attempt, cfg.retry_delay * 2 ^ attempt] := by
      simp [make_request_go, hne, hne403, h429, hlt', backoff_sleeps]
    refine ⟨heq, ?_⟩
    rw [heq]
    have hpow : (0 : ℚ) ≤ cfg.retry_delay * 2 ^ attempt :=
      mul_nonneg hrd (by positivity)
    simp [List.sum_cons]
    linarith

/-- C6 witness: both parts at concrete inputs — a rate-limit hint of 50
dominating a computed backoff of 1, and a concrete 429 attempt sleeping
31 then 1 (total 32 ≥ 31). -/
theorem rate_limit_hint_floor_witness :
    ((execute_go ⟨3, 1, 10, 2, false⟩
          (fun _ => (.error (.rateLimit (some 50)) : Except Exc Unit)) (fun _ => 0)
          3 0 (.error .other)).2.head?
        = some (max (calculate_delay ⟨3, 1, 10, 2, false⟩ 0 0) 50)
      ∧ (50 : ℚ) ≤ max (calculate_delay ⟨3, 1, 10, 2, false⟩ 0 0) 50)
    ∧ (backoff_sleeps ((make_request_go ⟨3, 1⟩ (fun _ => .status 429) (fun _ => 0) 3 0).2.headD [])
        = [30 + 1 * 2 ^ 0, 1 * 2 ^ 0]
      ∧ (30 : ℚ) + 1 * 2 ^ 0
          ≤ (backoff_sleeps
              ((make_request_go ⟨3, 1⟩ (fun _ => .status 429) (fun _ => 0) 3 0).2.headD [])).sum) :=
  ⟨rate_limit_hint_floor.1 ⟨3, 1, 10, 2, false⟩
      (fun _ => .error (.rateLimit (some 50))) (fun _ => 0) 2 0 (.error .other) 50
      rfl (by norm_num) (by norm_num),
   rate_limit_hint_floor.2 ⟨3, 1⟩ (fun _ => .status 429) (fun _ => 0) 2 0
      rfl (by norm_num) (by norm_num)⟩

/-- C7 counterexample: at a concrete run (max_retries 3, retry_delay 1,
every attempt answered 403), the backoff sleeps performed after attempt 0
are [1, 1] — the 403 branch sleep `1 * 3^0 = 1` followed by the standard
sleep `1 * 2^0 = 1` — not the single sleep `[1]` the claim prescribes. -/
theorem blocked403_single_sleep_cex :
    backoff_sleeps ((make_request ⟨3, 1⟩ (fun _ => .status 403) (fun _ => 0)).2.headD [])
        = [1, 1]
    ∧ backoff_sleeps ((make_request ⟨3, 1⟩ (fun _ => .status 403) (fun _ => 0)).2.headD [])
        ≠ [1] := by
  constructor
  · norm_num [make_request, make_request_go, backoff_sleeps]
    rfl
  · norm_num [make_request, make_request_go, backoff_sleeps]
    intro h
    simp [List.filter] at h

/-- C7 (amended): a 403 at attempt `a` with a retry remaining performs the
steep 403-branch backoff sleep `retry_delay * 3^a` AND then additionally
the standard end-of-iteration sleep `retry_delay * 2^a` — two backoff
sleeps before attempt `a + 1`, not one. -/
theorem blocked403_double_sleep (cfg : ReqCfg) (resp : Nat → FetchResult) (hd : Nat → ℚ)
    (rem attempt : Nat) (h403 : resp attempt = .status 403)
    (hlt : attempt + 1 < cfg.max_retries) :
    ((make_request_go cfg resp hd (rem + 1) attempt).2.headD []).filter
        (fun s => s.1 ≠ SleepKind.human)
      = [(SleepKind.blocked403, cfg.retry_delay * 3 ^ attempt),
         (SleepKind.standard, cfg.retry_delay * 2 ^ attempt)] := by
  have hne : resp attempt ≠ .status 200 := by simp [h403]
  have hlt' : attempt < cfg.max_retries - 1 := by omega
  simp [make_request_go, hne, h403, hlt']

/-- C7 witness: the two sleeps at a concrete 403 attempt. -/
theorem blocked403_double_sleep_witness :
    ((make_request_go ⟨3, 1⟩ (fun _ => .status 403) (fun _ => 0) 3 0).2.headD []).filter
        (fun s => s.1 ≠ SleepKind.human)
      = [(SleepKind.blocked403, 1 * 3 ^ 0), (SleepKind.standard, 1 * 2 ^ 0)] :=
  blocked403_double_sleep ⟨3, 1⟩ (fun _ => .status 403) (fun _ => 0) 2 0 rfl (by norm_num)

/-- C8: a single item whose extraction body raises yields the empty record
for that item only — `extract_product_data` returns the empty dict and the
batch result equals the batch over the remaining items, so no exception
propagates and the records from the other items on the page are
unchanged. -/
theorem extraction_isolated_per_item (Item : Type) (core : Item → Except Unit ProductRecord)
    (l1 l2 : List Item) (bad : Item) (hbad : core bad = .error ()) :
    extract_products_batch core (l1 ++ bad :: l2)
        = extract_products_batch core l1 ++ extract_products_batch core l2
    ∧ extract_product_data core bad = .empty_dict := by
  have hkeep : keep_product core bad = none := by
    simp [keep_product, extract_product_data, hbad]
  constructor
  · simp [extract_batch_eq_filterMap, List.filterMap_append, List.filterMap_cons, hkeep]
  · simp [extract_product_data, hbad]

/-- C8 witness: a concrete page of three items whose middle item raises. -/
theorem extraction_isolated_per_item_witness :
    extract_products_batch
        (fun n : Nat => if n = 1 then .error () else .ok sample_record) ([0] ++ 1 :: [2])
      = extract_products_batch
          (fun n : Nat => if n = 1 then .error () else .ok sample_record) [0]
        ++ extract_products_batch
          (fun n : Nat => if n = 1 then .error () else .ok sample_record) [2]
    ∧ extract_product_data
        (fun n : Nat => if n = 1 then .error () else .ok sample_record) 1 = .empty_dict :=
  extraction_isolated_per_item Nat
    (fun n : Nat => if n = 1 then .error () else .ok sample_record) [0] [2] 1 rfl

/-- Helper (C9): `random.choice` of a non-empty pool yields a pool
element. -/
theorem choice_mem (l : List String) (i : Nat) (h : l ≠ []) : choice l i ∈ l := by
  have hlen : 0 < l.length := List.length_pos.mpr h
  have hlt : i % l.length < l.length := Nat.mod_lt _ hlen
  rw [choice, List.getD_eq_getElem?_getD, List.getElem?_eq_getElem hlt]
  exact List.getElem_mem hlt

/-- C9 counterexample: the RNG outcome that draws the Macintosh Chrome
User-Agent (index 2) together with platform index 0 produces headers whose
User-Agent names MacIntel while `sec-ch-ua-platform` is `"Win32"` — a
mismatched platform/user-agent pair, refuting that such pairs are never
produced. -/
theorem header_consistency_cex :
    headers_consistent (get_rotating_headers ⟨2, 0, 0, 0, 0, 0, false, false⟩) = false := by
  decide

/-- C9 (amended): every generated value is drawn from its own fixed pool
(the User-Agent from the user-agent pool, the client-hint platform from the
platform pool), but the draws are independent, so internally inconsistent
platform/user-agent combinations are produced for some RNG outcomes. -/
theorem header_pools_independent :
    (∀ c : HeaderChoices,
      (get_rotating_headers c).user_agent ∈ user_agents
      ∧ ∃ p ∈ platforms, (get_rotating_headers c).sec_ch_ua_platform = "\"" ++ p ++ "\"")
    ∧ ∃ c : HeaderChoices, headers_consistent (get_rotating_headers c) = false := by
  constructor
  · intro c
    constructor
    · exact choice_mem user_agents c.ua_idx (by simp [user_agents])
    · exact ⟨choice platforms c.platform_idx,
        choice_mem platforms c.platform_idx (by simp [platforms]), rfl⟩
  · exact ⟨⟨2, 0, 0, 0, 0, 0, false, false⟩, by decide⟩

/-- C10: for any batch size ≥ 1 and any elementwise processor (a
`filterMap`, as `_extract_products_batch` is), `process_in_batches` equals
the processor applied to the whole list; hence `_scrape_page_internal`
returns the same product list whether or not the element count exceeds the
batch size. -/
theorem batching_preserves_results (α β Item : Type) (bs : Nat) (hbs : 1 ≤ bs) :
    (∀ (g : α → Option β) (items : List α),
      process_in_batches bs (List.filterMap g) items = some (items.filterMap g))
    ∧ (∀ (core : Item → Except Unit ProductRecord) (page : Option (List Item)),
      scrape_page_internal core bs page
        = some ((page.getD []).filterMap (keep_product core))) := by
  obtain ⟨b, rfl⟩ : ∃ b, bs = b + 1 := ⟨bs - 1, by omega⟩
  constructor
  · intro g items
    simp [process_in_batches,
      batches_go_filterMap b _ g (fun _ => rfl) items.length items le_rfl]
  · intro core page
    cases page with
    | none => simp [scrape_page_internal]
    | some elements =>
      by_cases hlen : b + 1 < elements.length
      · simp only [scrape_page_internal, hlen, if_true, process_in_batches,
          Option.getD_some]
        rw [batches_go_filterMap b _ (keep_product core)
          (fun l => extract_batch_eq_filterMap core l) elements.length elements le_rfl]
      · simp [scrape_page_internal, hlen, extract_batch_eq_filterMap]

/-- C10 witness: batching with size 1 over a three-element list, and a
two-element page scraped with batch size 1 (exceeding the batch size). -/
theorem batching_preserves_results_witness :
    process_in_batches 1 (List.filterMap (fun n : Nat => some n)) [1, 2, 3]
      = some (List.filterMap (fun n : Nat => some n) [1, 2, 3])
    ∧ scrape_page_internal (fun _ : Nat => .ok sample_record) 1 (some [0, 1])
      = some (((some [0, 1] : Option (List Nat)).getD []).filterMap
          (keep_product (fun _ : Nat => .ok sample_record))) :=
  ⟨(batching_preserves_results Nat Nat Nat 1 le_rfl).1 (fun n => some n) [1, 2, 3],
   (batching_preserves_results Nat Nat Nat 1 le_rfl).2 (fun _ => .ok sample_record)
      (some [0, 1])⟩

/-- Helper (C1): if the crawl loop is entered with `visited` within the
ceiling, it ends with at most `ceiling + 1` visited URLs (the
`len(visited) > ceiling` check runs only after a page is processed). -/
theorem crawl_loop_visited_le (world : World) (ceiling : Nat) :
    ∀ (fuel : Nat) (st : CrawlState), st.visited.length ≤ ceiling →
      (crawl_loop world ceiling fuel st).visited.length ≤ ceiling + 1 := by
  intro fuel
  induction fuel with
  | zero =>
    intro st h
    simpa [crawl_loop] using Nat.le_succ_of_le h
  | succ fuel ih =>
    intro st h
    rw [crawl_loop]
    cases hq : st.urls_to_visit with
    | nil => exact Nat.le_succ_of_le h
    | cons current rest =>
      dsimp only
      by_cases hv : current ∈ st.visited
      · rw [if_pos hv]
        exact ih _ h
      · rw [if_neg hv]
        have hstep : (crawl_step world st current rest).visited.length
            = st.visited.length + 1 := by
          simp [crawl_step]
        by_cases hc : ceiling < (crawl_step world st current rest).visited.length
        · rw [if_pos hc]
          omega
        · rw [if_neg hc]
          exact ih _ (by omega)

/-- Helper (C2): the crawl loop preserves duplicate-freeness of
`visited`. -/
theorem crawl_loop_visited_nodup (world : World) (ceiling : Nat) :
    ∀ (fuel : Nat) (st : CrawlState), st.visited.Nodup →
      (crawl_loop world ceiling fuel st).visited.Nodup := by
  intro fuel
  induction fuel with
  | zero =>
    intro st h
    simpa [crawl_loop] using h
  | succ fuel ih =>
    intro st h
    rw [crawl_loop]
    cases hq : st.urls_to_visit with
    | nil => exact h
    | cons current rest =>
      dsimp only
      by_cases hv : current ∈ st.visited
      · rw [if_pos hv]
        exact ih _ h
      · rw [if_neg hv]
        have hstep : (crawl_step world st current rest).visited.Nodup := by
          simp [crawl_step, List.nodup_append, h, hv]
        by_cases hc : ceiling < (crawl_step world st current rest).visited.length
        · rw [if_pos hc]
          exact hstep
        · rw [if_neg hc]
          exact ih _ hstep

/-- Helper (C2): the crawl loop appends some list `processed` of URLs to
`visited`, and appends each of them twice, in order, to the fetch log —
every processed page is fetched twice. -/
theorem crawl_loop_fetch_twice (world : World) (ceiling : Nat) :
    ∀ (fuel : Nat) (st : CrawlState), ∃ processed : List String,
      (crawl_loop world ceiling fuel st).visited = st.visited ++ processed
      ∧ (crawl_loop world ceiling fuel st).fetch_log
          = st.fetch_log ++ processed.flatMap (fun u => [u, u]) := by
  intro fuel
  induction fuel with
  | zero =>
    intro st
    exact ⟨[], by simp [crawl_loop]⟩
  | succ fuel ih =>
    intro st
    rw [crawl_loop]
    cases hq : st.urls_to_visit with
    | nil => exact ⟨[], by simp⟩
    | cons current rest =>
      dsimp only
      by_cases hv : current ∈ st.visited
      · rw [if_pos hv]
        obtain ⟨l, h1, h2⟩ := ih { st with urls_to_visit := rest }
        exact ⟨l, h1, h2⟩
      · rw [if_neg hv]
        by_cases hc : ceiling < (crawl_step world st current rest).visited.length
        · rw [if_pos hc]
          exact ⟨[current], by simp [crawl_step]⟩
        · rw [if_neg hc]
          obtain ⟨l, h1, h2⟩ := ih (crawl_step world st current rest)
          refine ⟨current :: l, ?_, ?_⟩
          · rw [h1]
            simp [crawl_step]
          · rw [h2]
            simp [crawl_step]

/-- Helper (C3): probing over candidates that all fail yields no winner and
logs every candidate. -/
theorem probe_all_fail (world : World) (base : String) (fb : List String) :
    ∀ l : List String, (∀ u ∈ l, world u = none) →
      probe world base fb l = (none, l) := by
  intro l h
  induction l with
  | nil => rfl
  | cons u us ih =>
    rw [probe]
    have hu : world u = none := h u (List.mem_cons_self u us)
    simp [hu, ih (fun v hv => h v (List.mem_cons_of_mem _ hv))]

/-- C1 counterexample: with `safetyCeiling = 2` and a root page yielding 5
pagination links, the run visits 3 pages (not 2) — the ceiling check
`len(visited) > ceiling` runs after each page — and performs 7 successful
page fetches over the network (the probe of the root plus two fetches per
visited page), so the total pages fetched both differs from 2 and exceeds
the ceiling. -/
theorem safety_ceiling_exact_two_cex :
    (scrape_all_products_internal world_five_links 2 10 "root" []).visited.length = 3
    ∧ ¬ ((scrape_all_products_internal world_five_links 2 10 "root" []).visited.length ≤ 2)
    ∧ pages_fetched world_five_links
        (scrape_all_products_internal world_five_links 2 10 "root" []) ≠ 2 := by
  decide

/-- C1 (amended): the number of pages visited by a crawl run never exceeds
`safetyCeiling + 1` (the bound is enforced after each page is processed,
not before the fetch), and in the `safetyCeiling = 2`, five-pagination-link
example exactly 3 pages are visited (each fetched twice). -/
theorem safety_ceiling_off_by_one :
    (∀ (world : World) (ceiling fuel : Nat) (base : String) (fallbacks : List String),
      (scrape_all_products_internal world ceiling fuel base fallbacks).visited.length
        ≤ ceiling + 1)
    ∧ (scrape_all_products_internal world_five_links 2 10 "root" []).visited.length = 3 := by
  constructor
  · intro world ceiling fuel base fallbacks
    unfold scrape_all_products_internal
    dsimp only
    split
    · simp
    · exact crawl_loop_visited_le world ceiling fuel _ (by simp)
  · decide

/-- C2 counterexample: in a crawl whose single page `root` has no
pagination links, the URL `root` is successfully fetched three times over
the network (once during probing and twice in the crawl loop — the probe
result is not reused and the page is refetched for pagination extraction),
so the multiset of fetched URLs has duplicates. -/
theorem no_double_fetch_cex :
    ((scrape_all_products_internal world_single_page 50 10 "root" []).fetch_log.filter
        (fun u => (world_single_page u).isSome)) = ["root", "root", "root"]
    ∧ ¬ ((scrape_all_products_internal world_single_page 50 10 "root" []).fetch_log.filter
        (fun u => (world_single_page u).isSome)).Nodup := by
  decide

/-- C2 (amended): no URL is processed twice — each dequeued URL is skipped
if already visited and marked visited before fetching, so the visited list
is always duplicate-free — but the already-fetched page result is NOT
reused for pagination extraction: the crawl loop fetches every processed
URL exactly twice (appending it twice to the fetch log), so the multiset of
network fetches does contain duplicates. -/
theorem visited_nodup_fetched_twice :
    (∀ (world : World) (ceiling fuel : Nat) (base : String) (fallbacks : List String),
      (scrape_all_products_internal world ceiling fuel base fallbacks).visited.Nodup)
    ∧ (∀ (world : World) (ceiling fuel : Nat) (st : CrawlState),
      ∃ processed : List String,
        (crawl_loop world ceiling fuel st).visited = st.visited ++ processed
        ∧ (crawl_loop world ceiling fuel st).fetch_log
            = st.fetch_log ++ processed.flatMap (fun u => [u, u])) := by
  constructor
  · intro world ceiling fuel base fallbacks
    unfold scrape_all_products_internal
    dsimp only
    split
    · simp
    · exact crawl_loop_visited_nodup world ceiling fuel _ (by simp)
  · intro world ceiling fuel st
    exact crawl_loop_fetch_twice world ceiling fuel st

/-- C3: when every entry-URL candidate of the gradual/probing sequence
fails, `scrape_all_products` returns an empty record list, visits no page,
and fetches zero pages successfully; the embedding is a total function, so
no exception is raised. -/
theorem probing_failure_empty (world : World) (ceiling fuel : Nat) (base : String)
    (fallbacks : List String)
    (hall : ∀ u ∈ gradual_urls base fallbacks, world u = none) :
    (scrape_all_products_internal world ceiling fuel base fallbacks).all_products = []
    ∧ (scrape_all_products_internal world ceiling fuel base fallbacks).visited = []
    ∧ pages_fetched world (scrape_all_products_internal world ceiling fuel base fallbacks)
        = 0 := by
  have hprobe : probe world base fallbacks (gradual_urls base fallbacks)
      = (none, gradual_urls base fallbacks) :=
    probe_all_fail world base fallbacks _ hall
  have hhome : homepage_url ∈ gradual_urls base fallbacks := by
    simp [gradual_urls]
  refine ⟨?_, ?_, ?_⟩
  · simp [scrape_all_products_internal, hprobe]
  · simp [scrape_all_products_internal, hprobe]
  · simp only [scrape_all_products_internal, hprobe, pages_fetched]
    rw [List.filter_eq_nil_iff.mpr ?_]
    · rfl
    · intro u hu
      simp only [List.cons_append, List.mem_cons, List.nil_append] at hu
      rcases hu with h | h
      · subst h
        simp [hall _ hhome]
      · simp [hall _ h]

/-- C3 witness: the all-failing network. -/
theorem probing_failure_empty_witness :
    (scrape_all_products_internal (fun _ => none) 50 5 "root" []).all_products = []
    ∧ (scrape_all_products_internal (fun _ => none) 50 5 "root" []).visited = []
    ∧ pages_fetched (fun _ => none)
        (scrape_all_products_internal (fun _ => none) 50 5 "root" []) = 0 :=
  probing_failure_empty (fun _ => none) 50 5 "root" [] (fun _ _ => rfl)
